import Mathlib

/-!
Verification of the go-inject dependency-injection container
(`container.go` and its helper file) against its specification.

The embedding models Go's `reflect.Type` tokens as an inductive `GoType`,
factory values as records carrying parameter/result type lists and a
behaviour function, and the container's mutable state (the services map,
an allocation counter for fresh instances, and a trace of factory
invocations) as an explicitly threaded `ResState`.  Recursion in
`resolveType`/`createInstance` is bounded by a fuel parameter; running out
of fuel is the distinguished outcome `none`, never confused with a Go
error.
-/

namespace Inject

/-- Go `reflect.Type` tokens: a concrete (struct) type with its method set,
an interface type with its required method set, or a pointer type. -/
inductive GoType where
  | concrete (name : String) (methods : List String)
  | iface (name : String) (methods : List String)
  | ptr (t : GoType)
deriving DecidableEq, Repr

/-- Rendering of `reflect.Type.String()` used inside error messages. -/
def typeString : GoType → String
  | GoType.concrete n _ => n
  | GoType.iface n _ => n
  | GoType.ptr t => "*" ++ typeString t

/-- Method set of a type, for `reflect.Type.Implements` checks. -/
def methodSet : GoType → List String
  | GoType.concrete _ ms => ms
  | GoType.iface _ ms => ms
  | GoType.ptr t => methodSet t

/-- Go's `r.Implements(s)`: every method required by the interface `s`
is provided by `r`.  (False when `s` is not an interface; the source only
calls `Implements` with interface arguments.) -/
def implementsIface (r s : GoType) : Bool :=
  match s with
  | GoType.iface _ ms => ms.all (fun m => (methodSet r).contains m)
  | _ => false

/-- `reflect.TypeOf((*error)(nil)).Elem()` — the `error` interface. -/
def errorType : GoType := GoType.iface "error" ["Error"]

/-- The `inject.Container` struct type; `*Container` is `GoType.ptr containerType`. -/
def containerType : GoType := GoType.concrete "inject.Container" []

/-- The one-level pointer normalisation applied by `Register`, `Resolve`
and `Has`: `if sType.Kind() == reflect.Ptr { sType = sType.Elem() }`. -/
def normalize : GoType → GoType
  | GoType.ptr t => t
  | t => t

/-- Kind test `t.Kind() == reflect.Ptr`. -/
def isPtr : GoType → Bool
  | GoType.ptr _ => true
  | _ => false

/-- Kind test `t.Kind() == reflect.Interface`. -/
def isInterface : GoType → Bool
  | GoType.iface _ _ => true
  | _ => false

/-- Go's `a.Kind() == reflect.Ptr && a.Elem() == b`. -/
def ptrElemEq : GoType → GoType → Bool
  | GoType.ptr e, b => e == b
  | _, _ => false

/-- Runtime values handed around by the container: an instance of a given
type with an allocation identity, the `*Container` back-reference, or nil. -/
inductive GoVal where
  | inst (t : GoType) (id : Nat)
  | containerRef
  | nilRef
deriving DecidableEq, Repr

/-- A Go function value used as a factory: its declared parameter types,
its declared result types, and its behaviour.  `impl args id` receives the
resolved arguments plus a fresh allocation identity and yields the first
result together with the (optional) error carried by a declared second
result; when only one result is declared the error component is ignored,
mirroring `len(results) == 2` in `createInstance`. -/
structure Factory where
  params : List GoType
  results : List GoType
  impl : List GoVal → Nat → GoVal × Option String

/-- The `factory interface{}` argument of `Register`: either a function
value or some non-function value (whose `reflect.TypeOf(...).Kind()` is
not `reflect.Func`). -/
inductive FactoryArg where
  | fn (f : Factory)
  | nonFunc (t : GoType)

/-- `type Lifecycle int` with its two constants. -/
inductive Lifecycle where
  | Transient
  | Singleton
deriving DecidableEq, Repr

/-- `ServiceDescriptor`; the Go field `instance` is called `cachedInstance`
here because `instance` is a Lean keyword. -/
structure ServiceDescriptor where
  serviceType : GoType
  factory : Factory
  lifecycle : Lifecycle
  cachedInstance : Option GoVal

/-- The container's `services map[reflect.Type]*ServiceDescriptor`,
modelled as an association list with at most one entry per key. -/
def AList := List (GoType × ServiceDescriptor)

/-- Map lookup `c.services[k]`. -/
def lookupSvc : AList → GoType → Option ServiceDescriptor
  | [], _ => none
  | (k', d') :: rest, k => if k' = k then some d' else lookupSvc rest k

/-- Map store `c.services[k] = d` (replace or append). -/
def setSvc : AList → GoType → ServiceDescriptor → AList
  | [], k, d => [(k, d)]
  | (k', d') :: rest, k, d =>
    if k' = k then (k, d) :: rest else (k', d') :: setSvc rest k d

/-- The write `descriptor.instance = v` performed through the descriptor
pointer stored in the map at key `k`. -/
def setCache : AList → GoType → GoVal → AList
  | [], _, _ => []
  | (k', d') :: rest, k, v =>
    if k' = k then (k', { d' with cachedInstance := some v }) :: rest
    else (k', d') :: setCache rest k v

/-- Registration errors raised by `Register`, by the `fmt.Errorf` call
that produces them. -/
inductive RegErr where
  | notFunc
  | badArity
  | secondNotError
  | mismatchIface (r s : GoType)
  | mismatchConcrete (r s : GoType)
deriving DecidableEq, Repr

/-- Error message text of each registration error, as in the source. -/
def regErrMessage : RegErr → String
  | RegErr.notFunc => "factory must be a function"
  | RegErr.badArity =>
    "factory function must return 1 or 2 values (service and optionally error)"
  | RegErr.secondNotError => "second return value must be an error"
  | RegErr.mismatchIface r s =>
    "factory return type " ++ typeString r ++ " does not implement interface " ++ typeString s
  | RegErr.mismatchConcrete r s =>
    "factory return type " ++ typeString r ++ " does not match service type " ++ typeString s

/-- Resolution-time errors.  `depFailed` wraps its cause (`%w`),
`factoryErr` carries a factory-reported error verbatim. -/
inductive RErr where
  | notRegistered (t : GoType)
  | depFailed (p : GoType) (cause : RErr)
  | factoryErr (msg : String)
deriving DecidableEq, Repr

/-- Error message text of each resolution error, as in the source. -/
def errMessage : RErr → String
  | RErr.notRegistered t => "service of type " ++ typeString t ++ " not registered"
  | RErr.depFailed p cause =>
    "failed to resolve dependency " ++ typeString p ++ ": " ++ errMessage cause
  | RErr.factoryErr msg => msg

/-- The shared part of `Register` after the factory-shape checks: the
type-compatibility rule and, on success, building and storing the
descriptor (`c.services[sType] = descriptor`). -/
def compatAndStore (c : AList) (sType : GoType) (f : Factory) (lifecycle : Lifecycle)
    (returnType : GoType) : Option RegErr × AList :=
  if isInterface sType then
    if implementsIface returnType sType then
      (none, setSvc c sType (ServiceDescriptor.mk sType f lifecycle none))
    else (some (RegErr.mismatchIface returnType sType), c)
  else
    if returnType = sType then
      (none, setSvc c sType (ServiceDescriptor.mk sType f lifecycle none))
    else if ptrElemEq returnType sType then
      (none, setSvc c sType (ServiceDescriptor.mk sType f lifecycle none))
    else if ptrElemEq sType returnType then
      (none, setSvc c sType (ServiceDescriptor.mk sType f lifecycle none))
    else (some (RegErr.mismatchConcrete returnType sType), c)

/-- `Container.Register`.  The `serviceType` argument is represented by
the dynamic type of the value passed (what `reflect.TypeOf` yields); on
failure the unchanged map is returned alongside the error, mirroring the
early returns that leave `c.services` untouched. -/
def Register (c : AList) (serviceType : GoType) (factory : FactoryArg)
    (lifecycle : Lifecycle) : Option RegErr × AList :=
  let sType := normalize serviceType
  match factory with
  | FactoryArg.nonFunc _ => (some RegErr.notFunc, c)
  | FactoryArg.fn f =>
    match f.results with
    | [returnType] => compatAndStore c sType f lifecycle returnType
    | [returnType, second] =>
      if implementsIface second errorType then
        compatAndStore c sType f lifecycle returnType
      else (some RegErr.secondNotError, c)
    | _ => (some RegErr.badArity, c)

/-- Mutable state threaded through resolution: the services map, a fresh
allocation counter handed to factory invocations, and the trace of factory
invocations (each entry is the invoked descriptor's `ServiceType`). -/
structure ResState where
  services : AList
  nextId : Nat
  calls : List GoType

/-- The argument-resolution loop of `createInstance`, parameterised by the
recursive resolver `res`.  A parameter equal to `*Container` is bound to
the container back-reference with no recursive resolution; any other
parameter is resolved recursively, a failure being wrapped as
`failed to resolve dependency P: ...`. -/
def resolveArgsWith (res : ResState → GoType → Option (Except RErr GoVal × ResState)) :
    ResState → List GoType → Option (Except RErr (List GoVal) × ResState)
  | st, [] => some (Except.ok [], st)
  | st, p :: ps =>
    if p = GoType.ptr containerType then
      match resolveArgsWith res st ps with
      | none => none
      | some (Except.error e, st') => some (Except.error e, st')
      | some (Except.ok vs, st') => some (Except.ok (GoVal.containerRef :: vs), st')
    else
      match res st p with
      | none => none
      | some (Except.error e, st') => some (Except.error (RErr.depFailed p e), st')
      | some (Except.ok v, st') =>
        match resolveArgsWith res st' ps with
        | none => none
        | some (Except.error e, st'') => some (Except.error e, st'')
        | some (Except.ok vs, st'') => some (Except.ok (v :: vs), st'')

/-- `Container.createInstance`, parameterised by the recursive resolver.
After the arguments are bound the factory is invoked (recorded in the
trace, consuming one fresh allocation identity); if it declared two
results and the second is non-nil that error is returned verbatim,
otherwise the first result is the created instance. -/
def createInstanceWith (res : ResState → GoType → Option (Except RErr GoVal × ResState))
    (st : ResState) (d : ServiceDescriptor) : Option (Except RErr GoVal × ResState) :=
  match resolveArgsWith res st d.factory.params with
  | none => none
  | some (Except.error e, st') => some (Except.error e, st')
  | some (Except.ok args, st') =>
    let out := d.factory.impl args st'.nextId
    let st'' := ResState.mk st'.services (st'.nextId + 1) (st'.calls ++ [d.serviceType])
    if d.factory.results.length = 2 then
      match out.2 with
      | some msg => some (Except.error (RErr.factoryErr msg), st'')
      | none => some (Except.ok out.1, st'')
    else some (Except.ok out.1, st'')

/-- `Container.resolveType`, with fuel bounding the recursion depth (the
source has no cycle detection; a cycle exhausts any fuel and yields
`none`).  The double-checked locking of the source collapses to a single
cache check in this sequential embedding. -/
def resolveType : Nat → ResState → GoType → Option (Except RErr GoVal × ResState)
  | 0, _, _ => none
  | fuel + 1, st, serviceType =>
    match lookupSvc st.services serviceType with
    | none => some (Except.error (RErr.notRegistered serviceType), st)
    | some d =>
      match d.lifecycle with
      | Lifecycle.Singleton =>
        match d.cachedInstance with
        | some v => some (Except.ok v, st)
        | none =>
          match createInstanceWith (resolveType fuel) st d with
          | none => none
          | some (Except.error e, st') => some (Except.error e, st')
          | some (Except.ok v, st') =>
            some (Except.ok v,
              ResState.mk (setCache st'.services serviceType v) st'.nextId st'.calls)
      | Lifecycle.Transient => createInstanceWith (resolveType fuel) st d

/-- `Container.createInstance` as called from `resolveType`. -/
def createInstance (fuel : Nat) (st : ResState) (d : ServiceDescriptor) :
    Option (Except RErr GoVal × ResState) :=
  createInstanceWith (resolveType fuel) st d

/-- `Container.Resolve`: one-level pointer normalisation, then `resolveType`. -/
def Resolve (fuel : Nat) (st : ResState) (serviceType : GoType) :
    Option (Except RErr GoVal × ResState) :=
  resolveType fuel st (normalize serviceType)

/-- `Container.Has`. -/
def Has (c : AList) (serviceType : GoType) : Bool :=
  (lookupSvc c (normalize serviceType)).isSome

/-- `Container.GetServiceTypes` (the spec's `ListTypes`). -/
def GetServiceTypes (c : AList) : List GoType :=
  c.map Prod.fst

/-- `Container.Clear`: `c.services = make(map[reflect.Type]*ServiceDescriptor)`. -/
def Clear (_c : AList) : AList := []

/-- The immutable part of the descriptor stored at a key. -/
def skelAt (c : AList) (k : GoType) : Option (GoType × Factory × Lifecycle) :=
  (lookupSvc c k).map (fun d => (d.serviceType, d.factory, d.lifecycle))

/-- Relation between a pre-state and a post-state of any resolution step:
descriptor skeletons are untouched and the call trace is extended. -/
def StateEvolves (st st' : ResState) : Prop :=
  (∀ k, skelAt st'.services k = skelAt st.services k) ∧
    ∃ ext, st'.calls = st.calls ++ ext

/-- Classification of an error result of `Register` as a malformed-factory
error (as opposed to a type-mismatch error). -/
def isMalformedErr : Option RegErr → Bool
  | some RegErr.notFunc => true
  | some RegErr.badArity => true
  | some RegErr.secondNotError => true
  | _ => false

/-- The spec's malformed-factory condition: not a function, or a result
arity other than 1 or 2, or a second result that cannot carry an error. -/
def MalformedCond : FactoryArg → Prop
  | FactoryArg.nonFunc _ => True
  | FactoryArg.fn f =>
    (f.results.length ≠ 1 ∧ f.results.length ≠ 2) ∨
      ∃ r s, f.results = [r, s] ∧ implementsIface s errorType = false

/-! ### Basic map lemmas -/

theorem lookupSvc_setSvc_self (c : AList) (k : GoType) (d : ServiceDescriptor) :
    lookupSvc (setSvc c k d) k = some d := by
  induction c with
  | nil => simp [setSvc, lookupSvc]
  | cons hd tl ih =>
    obtain ⟨k', d'⟩ := hd
    by_cases h : k' = k
    · simp [setSvc, lookupSvc, h]
    · simp [setSvc, lookupSvc, h, ih]

theorem lookupSvc_setSvc_ne (c : AList) (k k' : GoType) (d : ServiceDescriptor)
    (h : k' ≠ k) : lookupSvc (setSvc c k d) k' = lookupSvc c k' := by
  have h' : k ≠ k' := Ne.symm h
  induction c with
  | nil => simp [setSvc, lookupSvc, h']
  | cons hd tl ih =>
    obtain ⟨k0, d0⟩ := hd
    by_cases h0 : k0 = k
    · subst h0
      simp [setSvc, lookupSvc, h']
    · by_cases h1 : k0 = k'
      · simp [setSvc, lookupSvc, h0, h1, h]
      · simp [setSvc, lookupSvc, h0, h1, ih]

theorem lookupSvc_setCache_self (c : AList) (k : GoType) (v : GoVal) :
    lookupSvc (setCache c k v) k =
      (lookupSvc c k).map (fun d => { d with cachedInstance := some v }) := by
  induction c with
  | nil => simp [setCache, lookupSvc]
  | cons hd tl ih =>
    obtain ⟨k', d'⟩ := hd
    by_cases h : k' = k
    · simp [setCache, lookupSvc, h]
    · simp [setCache, lookupSvc, h, ih]

theorem lookupSvc_setCache_ne (c : AList) (k k' : GoType) (v : GoVal)
    (h : k' ≠ k) : lookupSvc (setCache c k v) k' = lookupSvc c k' := by
  have h' : k ≠ k' := Ne.symm h
  induction c with
  | nil => simp [setCache, lookupSvc]
  | cons hd tl ih =>
    obtain ⟨k0, d0⟩ := hd
    by_cases h0 : k0 = k
    · subst h0
      simp [setCache, lookupSvc, h']
    · by_cases h1 : k0 = k'
      · simp [setCache, lookupSvc, h0, h1, h]
      · simp [setCache, lookupSvc, h0, h1, ih]

/-! ### Frame properties of resolution

Resolution never changes a stored descriptor's service type, factory or
lifecycle — it can only populate cached-instance slots — and the factory
invocation trace only ever grows.  `skelAt` is a descriptor's
cache-erased skeleton as seen at a key. -/

theorem StateEvolves.refl (st : ResState) : StateEvolves st st :=
  ⟨fun _ => rfl, [], by simp⟩

theorem StateEvolves.trans {st1 st2 st3 : ResState}
    (h1 : StateEvolves st1 st2) (h2 : StateEvolves st2 st3) : StateEvolves st1 st3 := by
  obtain ⟨hs1, e1, hc1⟩ := h1
  obtain ⟨hs2, e2, hc2⟩ := h2
  exact ⟨fun k => (hs2 k).trans (hs1 k), e1 ++ e2, by simp [hc2, hc1]⟩

theorem skelAt_setCache (c : AList) (k k' : GoType) (v : GoVal) :
    skelAt (setCache c k v) k' = skelAt c k' := by
  by_cases h : k' = k
  · subst h
    simp [skelAt, lookupSvc_setCache_self]
    cases lookupSvc c k' <;> simp
  · simp [skelAt, lookupSvc_setCache_ne c k k' v h]

theorem resolveArgsWith_evolves
    (res : ResState → GoType → Option (Except RErr GoVal × ResState))
    (hres : ∀ st t r st', res st t = some (r, st') → StateEvolves st st') :
    ∀ (ps : List GoType) (st : ResState) (r : Except RErr (List GoVal)) (st' : ResState),
      resolveArgsWith res st ps = some (r, st') → StateEvolves st st' := by
  intro ps
  induction ps with
  | nil =>
    intro st r st' h
    simp only [resolveArgsWith] at h
    obtain ⟨rfl, rfl⟩ := Prod.mk.inj (Option.some.inj h)
    exact StateEvolves.refl st
  | cons p ps ih =>
    intro st r st' h
    simp only [resolveArgsWith] at h
    split at h
    · split at h
      · cases h
      · rename_i e st2 heq
        obtain ⟨rfl, rfl⟩ := Prod.mk.inj (Option.some.inj h)
        exact ih st _ _ heq
      · rename_i vs st2 heq
        obtain ⟨rfl, rfl⟩ := Prod.mk.inj (Option.some.inj h)
        exact ih st _ _ heq
    · split at h
      · cases h
      · rename_i e st2 heq
        obtain ⟨rfl, rfl⟩ := Prod.mk.inj (Option.some.inj h)
        exact hres st p _ _ heq
      · rename_i v st2 heq
        split at h
        · cases h
        · rename_i e st3 heq2
          obtain ⟨rfl, rfl⟩ := Prod.mk.inj (Option.some.inj h)
          exact (hres st p _ _ heq).trans (ih st2 _ _ heq2)
        · rename_i vs st3 heq2
          obtain ⟨rfl, rfl⟩ := Prod.mk.inj (Option.some.inj h)
          exact (hres st p _ _ heq).trans (ih st2 _ _ heq2)

theorem createInstanceWith_evolves
    (res : ResState → GoType → Option (Except RErr GoVal × ResState))
    (hres : ∀ st t r st', res st t = some (r, st') → StateEvolves st st')
    (st : ResState) (d : ServiceDescriptor) (r : Except RErr GoVal) (st' : ResState)
    (h : createInstanceWith res st d = some (r, st')) : StateEvolves st st' := by
  simp only [createInstanceWith] at h
  split at h
  · cases h
  · rename_i e st2 heq
    obtain ⟨rfl, rfl⟩ := Prod.mk.inj (Option.some.inj h)
    exact resolveArgsWith_evolves res hres _ st _ _ heq
  · rename_i args st2 heq
    have h1 : StateEvolves st st2 := resolveArgsWith_evolves res hres _ st _ _ heq
    have h2 : StateEvolves st2
        (ResState.mk st2.services (st2.nextId + 1) (st2.calls ++ [d.serviceType])) :=
      ⟨fun _ => rfl, [d.serviceType], rfl⟩
    split at h
    · split at h
      · obtain ⟨rfl, rfl⟩ := Prod.mk.inj (Option.some.inj h)
        exact h1.trans h2
      · obtain ⟨rfl, rfl⟩ := Prod.mk.inj (Option.some.inj h)
        exact h1.trans h2
    · obtain ⟨rfl, rfl⟩ := Prod.mk.inj (Option.some.inj h)
      exact h1.trans h2

theorem resolveType_evolves :
    ∀ (fuel : Nat) (st : ResState) (t : GoType) (r : Except RErr GoVal) (st' : ResState),
      resolveType fuel st t = some (r, st') → StateEvolves st st' := by
  intro fuel
  induction fuel with
  | zero => intro st t r st' h; exact absurd h (by simp [resolveType])
  | succ fuel ih =>
    intro st t r st' h
    simp only [resolveType] at h
    split at h
    · obtain ⟨rfl, rfl⟩ := Prod.mk.inj (Option.some.inj h)
      exact StateEvolves.refl st
    · rename_i d hd
      split at h
      · split at h
        · rename_i v hci
          obtain ⟨rfl, rfl⟩ := Prod.mk.inj (Option.some.inj h)
          exact StateEvolves.refl st
        · rename_i hci
          split at h
          · cases h
          · rename_i e st2 hcr
            obtain ⟨rfl, rfl⟩ := Prod.mk.inj (Option.some.inj h)
            exact createInstanceWith_evolves _ ih st d _ _ hcr
          · rename_i v st2 hcr
            obtain ⟨rfl, rfl⟩ := Prod.mk.inj (Option.some.inj h)
            have h1 : StateEvolves st st2 := createInstanceWith_evolves _ ih st d _ _ hcr
            exact h1.trans ⟨fun k => skelAt_setCache st2.services _ k v, [], by simp⟩
      · exact createInstanceWith_evolves _ ih st d _ _ h

/-! ### Shape lemmas for instance creation -/

/-- Decomposition of a successful `createInstanceWith` run: the arguments
resolved successfully, the factory was invoked exactly once (appended to
the trace, consuming one allocation identity), and the instance is the
factory's first result. -/
theorem createInstanceWith_ok
    (res : ResState → GoType → Option (Except RErr GoVal × ResState))
    (st : ResState) (d : ServiceDescriptor) (v : GoVal) (st' : ResState)
    (h : createInstanceWith res st d = some (Except.ok v, st')) :
    ∃ args st2, resolveArgsWith res st d.factory.params = some (Except.ok args, st2) ∧
      st'.services = st2.services ∧ st'.nextId = st2.nextId + 1 ∧
      st'.calls = st2.calls ++ [d.serviceType] ∧
      v = (d.factory.impl args st2.nextId).1 := by
  simp only [createInstanceWith] at h
  split at h
  · cases h
  · simp at h
  · rename_i args st2 heq
    refine ⟨args, st2, heq, ?_⟩
    split at h
    · split at h
      · simp at h
      · obtain ⟨hv, rfl⟩ := Prod.mk.inj (Option.some.inj h)
        exact ⟨rfl, rfl, rfl, (Except.ok.inj hv).symm⟩
    · obtain ⟨hv, rfl⟩ := Prod.mk.inj (Option.some.inj h)
      exact ⟨rfl, rfl, rfl, (Except.ok.inj hv).symm⟩

/-- Any error produced by the argument-resolution loop is a
`depFailed` wrapper. -/
theorem resolveArgsWith_error_shape
    (res : ResState → GoType → Option (Except RErr GoVal × ResState)) :
    ∀ (ps : List GoType) (st : ResState) (e : RErr) (st' : ResState),
      resolveArgsWith res st ps = some (Except.error e, st') →
      ∃ p e2, e = RErr.depFailed p e2 := by
  intro ps
  induction ps with
  | nil => intro st e st' h; simp [resolveArgsWith] at h
  | cons p ps ih =>
    intro st e st' h
    simp only [resolveArgsWith] at h
    split at h
    · split at h
      · cases h
      · rename_i e2 st2 heq
        obtain ⟨he, rfl⟩ := Prod.mk.inj (Option.some.inj h)
        exact Except.error.inj he ▸ ih st e2 _ heq
      · simp at h
    · split at h
      · cases h
      · rename_i e2 st2 heq
        obtain ⟨he, rfl⟩ := Prod.mk.inj (Option.some.inj h)
        exact ⟨p, e2, (Except.error.inj he).symm⟩
      · rename_i v st2 heq
        split at h
        · cases h
        · rename_i e2 st3 heq2
          obtain ⟨he, rfl⟩ := Prod.mk.inj (Option.some.inj h)
          exact Except.error.inj he ▸ ih st2 e2 _ heq2
        · simp at h

/-- Any error produced by instance creation is either a dependency-failure
wrapper or a factory-reported error — never a bare `notRegistered`. -/
theorem createInstanceWith_error_shape
    (res : ResState → GoType → Option (Except RErr GoVal × ResState))
    (st : ResState) (d : ServiceDescriptor) (e : RErr) (st' : ResState)
    (h : createInstanceWith res st d = some (Except.error e, st')) :
    (∃ p e2, e = RErr.depFailed p e2) ∨ ∃ m, e = RErr.factoryErr m := by
  simp only [createInstanceWith] at h
  split at h
  · cases h
  · rename_i e2 st2 heq
    obtain ⟨he, rfl⟩ := Prod.mk.inj (Option.some.inj h)
    exact Or.inl (Except.error.inj he ▸ resolveArgsWith_error_shape res _ st e2 _ heq)
  · rename_i args st2 heq
    split at h
    · split at h
      · rename_i msg hmsg
        obtain ⟨he, rfl⟩ := Prod.mk.inj (Option.some.inj h)
        exact Or.inr ⟨msg, (Except.error.inj he).symm⟩
      · simp at h
    · simp at h

/-- A Singleton descriptor with a populated cache resolves to the cached
instance at once, with no state change at all (hence no factory call). -/
theorem resolveType_cached_hit (fuel : Nat) (st : ResState) (t : GoType)
    (d : ServiceDescriptor) (v : GoVal)
    (hd : lookupSvc st.services t = some d)
    (hlc : d.lifecycle = Lifecycle.Singleton)
    (hci : d.cachedInstance = some v) :
    resolveType (fuel + 1) st t = some (Except.ok v, st) := by
  simp [resolveType, hd, hlc, hci]

/-! ### Registration lemmas -/

theorem ptr_ne : ∀ x : GoType, GoType.ptr x ≠ x := by
  intro x
  induction x with
  | concrete n ms => simp
  | iface n ms => simp
  | ptr t ih => intro h; exact ih (GoType.ptr.inj h)

theorem ptrElemEq_iff (a b : GoType) : ptrElemEq a b = true ↔ a = GoType.ptr b := by
  cases a <;> simp [ptrElemEq]

/-- The compatibility check can only produce a type-mismatch error. -/
theorem compatAndStore_fst (c : AList) (sType : GoType) (f : Factory) (lc : Lifecycle)
    (rT : GoType) :
    (compatAndStore c sType f lc rT).1 = none ∨
    (compatAndStore c sType f lc rT).1 = some (RegErr.mismatchIface rT sType) ∨
    (compatAndStore c sType f lc rT).1 = some (RegErr.mismatchConcrete rT sType) := by
  unfold compatAndStore
  repeat' split
  all_goals simp

/-- The verdict of the compatibility check does not depend on the factory
value or lifecycle being stored. -/
theorem compatAndStore_fst_eq (c : AList) (sType : GoType) (f g : Factory)
    (lc lc2 : Lifecycle) (rT : GoType) :
    (compatAndStore c sType f lc rT).1 = (compatAndStore c sType g lc2 rT).1 := by
  unfold compatAndStore
  repeat' split
  all_goals rfl

/-- A successful compatibility check stores exactly the fresh descriptor. -/
theorem compatAndStore_success (c c' : AList) (sType : GoType) (f : Factory)
    (lc : Lifecycle) (rT : GoType)
    (h : compatAndStore c sType f lc rT = (none, c')) :
    c' = setSvc c sType (ServiceDescriptor.mk sType f lc none) := by
  unfold compatAndStore at h
  repeat' split at h
  all_goals first
    | exact (Prod.mk.inj h).2.symm
    | exact absurd (Prod.mk.inj h).1 (by simp)

/-- A successful `Register` call necessarily received a function factory
and replaced the entry at the normalised key with a fresh descriptor. -/
theorem Register_success_shape (c c' : AList) (tok : GoType) (fa : FactoryArg)
    (lc : Lifecycle)
    (h : Register c tok fa lc = (none, c')) :
    ∃ f, fa = FactoryArg.fn f ∧
      c' = setSvc c (normalize tok) (ServiceDescriptor.mk (normalize tok) f lc none) := by
  match fa with
  | FactoryArg.nonFunc t => exact absurd (Prod.mk.inj h).1 (by simp [Register])
  | FactoryArg.fn f =>
    refine ⟨f, rfl, ?_⟩
    simp only [Register] at h
    split at h
    · exact compatAndStore_success _ _ _ _ _ _ h
    · split at h
      · exact compatAndStore_success _ _ _ _ _ _ h
      · exact absurd (Prod.mk.inj h).1 (by simp)
    · exact absurd (Prod.mk.inj h).1 (by simp)

/-! ### The claims -/

/-- C7: for a serviceType with no stored descriptor, `Resolve` fails with a
not-registered error naming the requested type and returns the state
unchanged, and `Has` for that type is false — both before and after the
failed resolution, since the returned state is the input state itself. -/
theorem resolve_unregistered_fails (st : ResState) (tok : GoType) (fuel : Nat)
    (h : lookupSvc st.services (normalize tok) = none) :
    Resolve (fuel + 1) st tok =
        some (Except.error (RErr.notRegistered (normalize tok)), st) ∧
    Has st.services tok = false ∧
    errMessage (RErr.notRegistered (normalize tok)) =
      "service of type " ++ typeString (normalize tok) ++ " not registered" := by
  refine ⟨?_, ?_, rfl⟩
  · simp [Resolve, resolveType, h]
  · simp [Has, h]

/-- Witness for C7 on an empty container and the token `Widget`. -/
theorem resolve_unregistered_fails_witness :
    lookupSvc (ResState.mk [] 0 []).services
        (normalize (GoType.concrete "Widget" [])) = none ∧
    (Resolve 1 (ResState.mk [] 0 []) (GoType.concrete "Widget" []) =
        some (Except.error (RErr.notRegistered (normalize (GoType.concrete "Widget" []))),
          ResState.mk [] 0 []) ∧
      Has (ResState.mk [] 0 []).services (GoType.concrete "Widget" []) = false ∧
      errMessage (RErr.notRegistered (normalize (GoType.concrete "Widget" []))) =
        "service of type " ++ typeString (normalize (GoType.concrete "Widget" [])) ++
          " not registered") :=
  ⟨rfl, resolve_unregistered_fails (ResState.mk [] 0 []) (GoType.concrete "Widget" []) 0 rfl⟩

/-- C9: after `Clear` the mapping is empty — `GetServiceTypes` returns the
empty collection and `Has` is false for every serviceType (in particular
every previously registered one).  `Clear` only replaces the services map;
resolved instances are immutable `GoVal` values living outside the map, so
an externally held instance reference is untouched by construction. -/
theorem clear_empties_registry (c : AList) :
    GetServiceTypes (Clear c) = [] ∧ ∀ tok, Has (Clear c) tok = false := by
  exact ⟨rfl, fun tok => rfl⟩

/-- C6: `Register` reports a malformed-factory error exactly when the
factory is not a function, has result arity other than 1 or 2, or has a
second result that does not implement `error`; in every such case the
error is returned synchronously and the registry map is unchanged. -/
theorem register_malformed_iff (c : AList) (tok : GoType) (fa : FactoryArg)
    (lc : Lifecycle) :
    (isMalformedErr (Register c tok fa lc).1 = true ↔ MalformedCond fa) ∧
    (MalformedCond fa → (Register c tok fa lc).2 = c) := by
  match fa with
  | FactoryArg.nonFunc t =>
    exact ⟨by simp [Register, isMalformedErr, MalformedCond], fun _ => rfl⟩
  | FactoryArg.fn f =>
    rcases hr : f.results with - | ⟨r, - | ⟨s, - | ⟨u, rest⟩⟩⟩
    · refine ⟨?_, fun _ => ?_⟩
      · simp [Register, hr, isMalformedErr, MalformedCond]
      · simp [Register, hr]
    · constructor
      · rcases compatAndStore_fst c (normalize tok) f lc r with h | h | h <;>
          simp [Register, hr, h, isMalformedErr, MalformedCond]
      · intro hm
        exact absurd hm (by simp [MalformedCond, hr])
    · by_cases himp : implementsIface s errorType = true
      · constructor
        · rcases compatAndStore_fst c (normalize tok) f lc r with h | h | h <;>
            simp [Register, hr, himp, h, isMalformedErr, MalformedCond]
        · intro hm
          exact absurd hm (by simp [MalformedCond, hr, himp])
      · rw [Bool.not_eq_true] at himp
        refine ⟨?_, fun _ => ?_⟩
        · refine iff_of_true ?_ (Or.inr ⟨r, s, hr, himp⟩)
          simp [Register, hr, himp, isMalformedErr]
        · simp [Register, hr, himp]
    · refine ⟨?_, fun _ => ?_⟩
      · simp [Register, hr, isMalformedErr, MalformedCond]
      · simp [Register, hr]

/-- Witness for C6: registering a non-function value (the malformed case)
and checking the error class and the untouched registry. -/
theorem register_malformed_iff_witness :
    isMalformedErr
        (Register [] (GoType.concrete "Widget" [])
          (FactoryArg.nonFunc (GoType.concrete "int" [])) Lifecycle.Singleton).1 = true ∧
    (Register [] (GoType.concrete "Widget" [])
        (FactoryArg.nonFunc (GoType.concrete "int" [])) Lifecycle.Singleton).2 = [] :=
  ⟨(register_malformed_iff [] (GoType.concrete "Widget" [])
      (FactoryArg.nonFunc (GoType.concrete "int" [])) Lifecycle.Singleton).1.mpr trivial,
    (register_malformed_iff [] (GoType.concrete "Widget" [])
      (FactoryArg.nonFunc (GoType.concrete "int" [])) Lifecycle.Singleton).2 trivial⟩

/-- The verdict of `Register` depends only on the declared result types of
the factory, never on its behaviour or the chosen lifecycle. -/
theorem Register_fst_factory_indep (c : AList) (tok : GoType) (f g : Factory)
    (lc lc2 : Lifecycle) (hres : f.results = g.results) :
    (Register c tok (FactoryArg.fn f) lc).1 = (Register c tok (FactoryArg.fn g) lc2).1 := by
  simp only [Register]
  rw [← hres]
  generalize f.results = rs
  match rs with
  | [] => rfl
  | [r] => exact compatAndStore_fst_eq c (normalize tok) f g lc lc2 r
  | [r, s] =>
    by_cases h : implementsIface s errorType = true
    · simp only [h, if_true]
      exact compatAndStore_fst_eq c (normalize tok) f g lc lc2 r
    · rw [Bool.not_eq_true] at h
      simp [h]
  | r :: s :: u :: rest => rfl

/-- C8: a successful `Register` stores a fresh descriptor (empty
instance cache, the given factory and lifecycle) at the normalised key,
unconditionally replacing any prior descriptor for that key; it leaves
every other key of the map untouched; and its verdict is independent of
the factory's behaviour function, i.e. the factory is never invoked
during registration. -/
theorem register_success_stores (c c' : AList) (tok : GoType) (f : Factory)
    (lc : Lifecycle)
    (h : Register c tok (FactoryArg.fn f) lc = (none, c')) :
    lookupSvc c' (normalize tok) =
        some (ServiceDescriptor.mk (normalize tok) f lc none) ∧
    (∀ k, k ≠ normalize tok → lookupSvc c' k = lookupSvc c k) ∧
    ∀ impl2,
      (Register c tok (FactoryArg.fn (Factory.mk f.params f.results impl2)) lc).1 =
        none := by
  obtain ⟨f0, hf0, hc'⟩ := Register_success_shape c c' tok _ lc h
  have hf : f0 = f := (FactoryArg.fn.inj hf0).symm
  rw [hf] at hc'
  subst hc'
  refine ⟨lookupSvc_setSvc_self _ _ _, fun k hk => lookupSvc_setSvc_ne _ _ _ _ hk, ?_⟩
  intro impl2
  rw [← Register_fst_factory_indep c tok f (Factory.mk f.params f.results impl2) lc lc rfl,
    h]

/-- Witness for C8: registering a `Widget` factory into an empty map. -/
theorem register_success_stores_witness :
    Register [] (GoType.concrete "Widget" [])
        (FactoryArg.fn (Factory.mk [] [GoType.concrete "Widget" []]
          (fun _ i => (GoVal.inst (GoType.concrete "Widget" []) i, none))))
        Lifecycle.Singleton =
      (none,
        [(GoType.concrete "Widget" [],
          ServiceDescriptor.mk (GoType.concrete "Widget" [])
            (Factory.mk [] [GoType.concrete "Widget" []]
              (fun _ i => (GoVal.inst (GoType.concrete "Widget" []) i, none)))
            Lifecycle.Singleton none)]) ∧
    lookupSvc
        [(GoType.concrete "Widget" [],
          ServiceDescriptor.mk (GoType.concrete "Widget" [])
            (Factory.mk [] [GoType.concrete "Widget" []]
              (fun _ i => (GoVal.inst (GoType.concrete "Widget" []) i, none)))
            Lifecycle.Singleton none)]
        (normalize (GoType.concrete "Widget" [])) =
      some (ServiceDescriptor.mk (normalize (GoType.concrete "Widget" []))
        (Factory.mk [] [GoType.concrete "Widget" []]
          (fun _ i => (GoVal.inst (GoType.concrete "Widget" []) i, none)))
        Lifecycle.Singleton none) :=
  ⟨rfl,
    (register_success_stores []
      [(GoType.concrete "Widget" [],
        ServiceDescriptor.mk (GoType.concrete "Widget" [])
          (Factory.mk [] [GoType.concrete "Widget" []]
            (fun _ i => (GoVal.inst (GoType.concrete "Widget" []) i, none)))
          Lifecycle.Singleton none)]
      (GoType.concrete "Widget" [])
      (Factory.mk [] [GoType.concrete "Widget" []]
        (fun _ i => (GoVal.inst (GoType.concrete "Widget" []) i, none)))
      Lifecycle.Singleton rfl).1⟩

/-- C3: the type-compatibility rule of `Register` for a well-formed
factory with first result type `r`.  If the normalised service type is an
interface, registration succeeds exactly when `r` implements it and
otherwise fails with a mismatch error naming both types; if it is
concrete, registration succeeds exactly when `r` equals it, or `r` is a
pointer to it, or it is a pointer to `r`, and otherwise fails with a
mismatch error; each failure leaves the map unchanged, and the error
messages name both types. -/
theorem register_type_compat (c : AList) (tok : GoType) (f : Factory)
    (lc : Lifecycle) (r second sType : GoType)
    (hs : sType = normalize tok)
    (hr : f.results = [r] ∨
      (f.results = [r, second] ∧ implementsIface second errorType = true)) :
    (isInterface sType = true →
      (implementsIface r sType = true →
        Register c tok (FactoryArg.fn f) lc =
          (none, setSvc c sType (ServiceDescriptor.mk sType f lc none))) ∧
      (implementsIface r sType = false →
        Register c tok (FactoryArg.fn f) lc =
          (some (RegErr.mismatchIface r sType), c))) ∧
    (isInterface sType = false →
      ((r = sType ∨ r = GoType.ptr sType ∨ sType = GoType.ptr r) →
        Register c tok (FactoryArg.fn f) lc =
          (none, setSvc c sType (ServiceDescriptor.mk sType f lc none))) ∧
      (¬(r = sType ∨ r = GoType.ptr sType ∨ sType = GoType.ptr r) →
        Register c tok (FactoryArg.fn f) lc =
          (some (RegErr.mismatchConcrete r sType), c))) ∧
    regErrMessage (RegErr.mismatchIface r sType) =
      "factory return type " ++ typeString r ++ " does not implement interface " ++
        typeString sType ∧
    regErrMessage (RegErr.mismatchConcrete r sType) =
      "factory return type " ++ typeString r ++ " does not match service type " ++
        typeString sType := by
  subst hs
  have hreg : Register c tok (FactoryArg.fn f) lc =
      compatAndStore c (normalize tok) f lc r := by
    rcases hr with h1 | ⟨h1, h2⟩
    · simp [Register, h1]
    · simp [Register, h1, h2]
  refine ⟨?_, ?_, rfl, rfl⟩
  · intro hi
    constructor
    · intro himp
      rw [hreg]
      simp [compatAndStore, hi, himp]
    · intro himp
      rw [hreg]
      simp [compatAndStore, hi, himp]
  · intro hi
    constructor
    · intro hdisj
      rw [hreg]
      rcases hdisj with hh | hh | hh
      · simp [compatAndStore, hi, hh]
      · subst hh
        have hne : ¬ (GoType.ptr (normalize tok) = normalize tok) := ptr_ne _
        simp [compatAndStore, hi, hne, ptrElemEq]
      · have hne : ¬ (r = normalize tok) := by
          rw [hh]; exact fun hcon => ptr_ne r hcon.symm
        by_cases hc : ptrElemEq r (normalize tok) = true
        · simp [compatAndStore, hi, hne, hc]
        · rw [Bool.not_eq_true] at hc
          have h3 : ptrElemEq (normalize tok) r = true := (ptrElemEq_iff _ _).mpr hh
          simp [compatAndStore, hi, hne, hc, h3]
    · intro hdisj
      push_neg at hdisj
      obtain ⟨h1, h2, h3⟩ := hdisj
      have hb2 : ptrElemEq r (normalize tok) = false := by
        rw [← Bool.not_eq_true, ptrElemEq_iff]; exact h2
      have hb3 : ptrElemEq (normalize tok) r = false := by
        rw [← Bool.not_eq_true, ptrElemEq_iff]; exact h3
      rw [hreg]
      simp [compatAndStore, hi, h1, hb2, hb3]

/-- Witness for C3: a `ConsoleLogger` pointer factory registered under the
`Logger` interface (the implements check passes and the descriptor is
stored). -/
theorem register_type_compat_witness :
    isInterface (GoType.iface "Logger" ["Log"]) = true ∧
    implementsIface (GoType.ptr (GoType.concrete "ConsoleLogger" ["Log"]))
        (GoType.iface "Logger" ["Log"]) = true ∧
    Register [] (GoType.ptr (GoType.iface "Logger" ["Log"]))
        (FactoryArg.fn (Factory.mk []
          [GoType.ptr (GoType.concrete "ConsoleLogger" ["Log"])]
          (fun _ i =>
            (GoVal.inst (GoType.ptr (GoType.concrete "ConsoleLogger" ["Log"])) i, none))))
        Lifecycle.Singleton =
      (none,
        setSvc [] (GoType.iface "Logger" ["Log"])
          (ServiceDescriptor.mk (GoType.iface "Logger" ["Log"])
            (Factory.mk [] [GoType.ptr (GoType.concrete "ConsoleLogger" ["Log"])]
              (fun _ i =>
                (GoVal.inst (GoType.ptr (GoType.concrete "ConsoleLogger" ["Log"])) i,
                  none)))
            Lifecycle.Singleton none)) :=
  ⟨rfl, rfl,
    ((register_type_compat [] (GoType.ptr (GoType.iface "Logger" ["Log"]))
        (Factory.mk [] [GoType.ptr (GoType.concrete "ConsoleLogger" ["Log"])]
          (fun _ i =>
            (GoVal.inst (GoType.ptr (GoType.concrete "ConsoleLogger" ["Log"])) i, none)))
        Lifecycle.Singleton
        (GoType.ptr (GoType.concrete "ConsoleLogger" ["Log"]))
        (GoType.iface "Logger" ["Log"])
        (GoType.iface "Logger" ["Log"]) rfl (Or.inl rfl)).1 rfl).1 rfl⟩

/-- C2: during instance creation a declared parameter equal to
`*Container` is bound to the container back-reference with no recursive
resolution (the binding equation holds for an arbitrary resolver `res2`,
including one that fails on every type); any other parameter is resolved
recursively, and a failing recursive resolution aborts creation: the
argument loop, and with it `resolveType` of the requested type, returns a
dependency-resolution error wrapping the underlying error, whose message
names the parameter type and appends the wrapped message. -/
theorem dependency_binding_and_failure
    (res2 : ResState → GoType → Option (Except RErr GoVal × ResState))
    (st st2 : ResState) (p : GoType) (ps : List GoType) (e : RErr)
    (fuel : Nat) (t : GoType) (d : ServiceDescriptor)
    (hp : p ≠ GoType.ptr containerType)
    (hres : resolveType fuel st p = some (Except.error e, st2))
    (hd : lookupSvc st.services t = some d)
    (hlc : d.lifecycle = Lifecycle.Transient)
    (hparams : d.factory.params = p :: ps) :
    (∀ (st0 : ResState) (qs : List GoType) (vs : List GoVal) (st1 : ResState),
      resolveArgsWith res2 st0 qs = some (Except.ok vs, st1) →
      resolveArgsWith res2 st0 (GoType.ptr containerType :: qs) =
        some (Except.ok (GoVal.containerRef :: vs), st1)) ∧
    resolveArgsWith (resolveType fuel) st (p :: ps) =
      some (Except.error (RErr.depFailed p e), st2) ∧
    resolveType (fuel + 1) st t = some (Except.error (RErr.depFailed p e), st2) ∧
    errMessage (RErr.depFailed p e) =
      "failed to resolve dependency " ++ typeString p ++ ": " ++ errMessage e := by
  have hw : resolveArgsWith (resolveType fuel) st (p :: ps) =
      some (Except.error (RErr.depFailed p e), st2) := by
    simp [resolveArgsWith, hp, hres]
  refine ⟨?_, hw, ?_, rfl⟩
  · intro st0 qs vs st1 hq
    simp [resolveArgsWith, hq]
  · simp [resolveType, hd, hlc, createInstanceWith, hparams, hw]

/-- Witness for C2: a Transient `Svc` whose factory declares an
unregistered parameter `Dep`; resolving `Svc` wraps the not-registered
error for `Dep`. -/
theorem dependency_binding_and_failure_witness :
    (GoType.concrete "Dep" [] ≠ GoType.ptr containerType) ∧
    resolveType 1
        (ResState.mk
          [(GoType.concrete "Svc" [],
            ServiceDescriptor.mk (GoType.concrete "Svc" [])
              (Factory.mk [GoType.concrete "Dep" []] [GoType.concrete "Svc" []]
                (fun _ i => (GoVal.inst (GoType.concrete "Svc" []) i, none)))
              Lifecycle.Transient none)] 0 [])
        (GoType.concrete "Dep" []) =
      some (Except.error (RErr.notRegistered (GoType.concrete "Dep" [])),
        ResState.mk
          [(GoType.concrete "Svc" [],
            ServiceDescriptor.mk (GoType.concrete "Svc" [])
              (Factory.mk [GoType.concrete "Dep" []] [GoType.concrete "Svc" []]
                (fun _ i => (GoVal.inst (GoType.concrete "Svc" []) i, none)))
              Lifecycle.Transient none)] 0 []) ∧
    resolveType 2
        (ResState.mk
          [(GoType.concrete "Svc" [],
            ServiceDescriptor.mk (GoType.concrete "Svc" [])
              (Factory.mk [GoType.concrete "Dep" []] [GoType.concrete "Svc" []]
                (fun _ i => (GoVal.inst (GoType.concrete "Svc" []) i, none)))
              Lifecycle.Transient none)] 0 [])
        (GoType.concrete "Svc" []) =
      some (Except.error (RErr.depFailed (GoType.concrete "Dep" [])
            (RErr.notRegistered (GoType.concrete "Dep" []))),
        ResState.mk
          [(GoType.concrete "Svc" [],
            ServiceDescriptor.mk (GoType.concrete "Svc" [])
              (Factory.mk [GoType.concrete "Dep" []] [GoType.concrete "Svc" []]
                (fun _ i => (GoVal.inst (GoType.concrete "Svc" []) i, none)))
              Lifecycle.Transient none)] 0 []) :=
  ⟨by decide, rfl,
    (dependency_binding_and_failure (fun st _ => some (Except.ok GoVal.nilRef, st))
      (ResState.mk
        [(GoType.concrete "Svc" [],
          ServiceDescriptor.mk (GoType.concrete "Svc" [])
            (Factory.mk [GoType.concrete "Dep" []] [GoType.concrete "Svc" []]
              (fun _ i => (GoVal.inst (GoType.concrete "Svc" []) i, none)))
            Lifecycle.Transient none)] 0 [])
      (ResState.mk
        [(GoType.concrete "Svc" [],
          ServiceDescriptor.mk (GoType.concrete "Svc" [])
            (Factory.mk [GoType.concrete "Dep" []] [GoType.concrete "Svc" []]
              (fun _ i => (GoVal.inst (GoType.concrete "Svc" []) i, none)))
            Lifecycle.Transient none)] 0 [])
      (GoType.concrete "Dep" []) [] (RErr.notRegistered (GoType.concrete "Dep" []))
      1 (GoType.concrete "Svc" [])
      (ServiceDescriptor.mk (GoType.concrete "Svc" [])
        (Factory.mk [GoType.concrete "Dep" []] [GoType.concrete "Svc" []]
          (fun _ i => (GoVal.inst (GoType.concrete "Svc" []) i, none)))
        Lifecycle.Transient none)
      (by decide) rfl rfl rfl rfl).2.2.1⟩

/-- C4: when the invoked factory declares two results and reports an
error, `Resolve` returns that error verbatim — its message is exactly the
factory's message, with the instance result discarded — and the failed
creation is not cached: the returned state keeps the services map (and so
the empty instance slot) unchanged, and a later `Resolve` of the same
serviceType invokes the factory again, appending another trace entry. -/
theorem factory_error_verbatim_not_cached (st : ResState) (tok : GoType)
    (d : ServiceDescriptor) (fuel1 fuel2 : Nat) (v : GoVal) (msg : String)
    (hd : lookupSvc st.services (normalize tok) = some d)
    (hlc : d.lifecycle = Lifecycle.Singleton)
    (hci : d.cachedInstance = none)
    (hp : d.factory.params = [])
    (hlen : d.factory.results.length = 2)
    (himpl : d.factory.impl [] st.nextId = (v, some msg)) :
    Resolve (fuel1 + 1) st tok =
      some (Except.error (RErr.factoryErr msg),
        ResState.mk st.services (st.nextId + 1) (st.calls ++ [d.serviceType])) ∧
    errMessage (RErr.factoryErr msg) = msg ∧
    ∃ r st2,
      Resolve (fuel2 + 1)
          (ResState.mk st.services (st.nextId + 1) (st.calls ++ [d.serviceType]))
          tok =
        some (r, st2) ∧
      st2.calls = (st.calls ++ [d.serviceType]) ++ [d.serviceType] := by
  have hc1 : createInstanceWith (resolveType fuel1) st d =
      some (Except.error (RErr.factoryErr msg),
        ResState.mk st.services (st.nextId + 1) (st.calls ++ [d.serviceType])) := by
    simp [createInstanceWith, hp, resolveArgsWith, hlen, himpl]
  refine ⟨?_, rfl, ?_⟩
  · simp [Resolve, resolveType, hd, hlc, hci, hc1]
  · rcases himp2 : d.factory.impl [] (st.nextId + 1) with ⟨v2, e2⟩
    cases e2 with
    | some m2 =>
      refine ⟨Except.error (RErr.factoryErr m2),
        ResState.mk st.services (st.nextId + 1 + 1)
          ((st.calls ++ [d.serviceType]) ++ [d.serviceType]), ?_, rfl⟩
      have hc2 : createInstanceWith (resolveType fuel2)
          (ResState.mk st.services (st.nextId + 1) (st.calls ++ [d.serviceType])) d =
          some (Except.error (RErr.factoryErr m2),
            ResState.mk st.services (st.nextId + 1 + 1)
              ((st.calls ++ [d.serviceType]) ++ [d.serviceType])) := by
        simp [createInstanceWith, hp, resolveArgsWith, hlen, himp2]
      simp [Resolve, resolveType, hd, hlc, hci, hc2]
    | none =>
      refine ⟨Except.ok v2,
        ResState.mk (setCache st.services (normalize tok) v2) (st.nextId + 1 + 1)
          ((st.calls ++ [d.serviceType]) ++ [d.serviceType]), ?_, rfl⟩
      have hc2 : createInstanceWith (resolveType fuel2)
          (ResState.mk st.services (st.nextId + 1) (st.calls ++ [d.serviceType])) d =
          some (Except.ok v2,
            ResState.mk st.services (st.nextId + 1 + 1)
              ((st.calls ++ [d.serviceType]) ++ [d.serviceType])) := by
        simp [createInstanceWith, hp, resolveArgsWith, hlen, himp2]
      simp [Resolve, resolveType, hd, hlc, hci, hc2]

/-- Witness for C4: a Singleton `Widget` factory returning
`(nil, error("boom"))`; the resolution error message is exactly `boom`
and a second resolution invokes the factory again. -/
theorem factory_error_verbatim_not_cached_witness :
    (Factory.mk [] [GoType.concrete "Widget" [], errorType]
        (fun _ _ => (GoVal.nilRef, some "boom"))).impl [] 0 =
      (GoVal.nilRef, some "boom") ∧
    (Resolve 1
        (ResState.mk
          [(GoType.concrete "Widget" [],
            ServiceDescriptor.mk (GoType.concrete "Widget" [])
              (Factory.mk [] [GoType.concrete "Widget" [], errorType]
                (fun _ _ => (GoVal.nilRef, some "boom")))
              Lifecycle.Singleton none)] 0 [])
        (GoType.concrete "Widget" []) =
      some (Except.error (RErr.factoryErr "boom"),
        ResState.mk
          [(GoType.concrete "Widget" [],
            ServiceDescriptor.mk (GoType.concrete "Widget" [])
              (Factory.mk [] [GoType.concrete "Widget" [], errorType]
                (fun _ _ => (GoVal.nilRef, some "boom")))
              Lifecycle.Singleton none)] (0 + 1)
          ([] ++ [GoType.concrete "Widget" []])) ∧
      errMessage (RErr.factoryErr "boom") = "boom" ∧
      ∃ r st2,
        Resolve 1
            (ResState.mk
              [(GoType.concrete "Widget" [],
                ServiceDescriptor.mk (GoType.concrete "Widget" [])
                  (Factory.mk [] [GoType.concrete "Widget" [], errorType]
                    (fun _ _ => (GoVal.nilRef, some "boom")))
                  Lifecycle.Singleton none)] (0 + 1)
              ([] ++ [GoType.concrete "Widget" []]))
            (GoType.concrete "Widget" []) =
          some (r, st2) ∧
        st2.calls =
          ([] ++ [GoType.concrete "Widget" []]) ++ [GoType.concrete "Widget" []]) :=
  ⟨rfl,
    factory_error_verbatim_not_cached
      (ResState.mk
        [(GoType.concrete "Widget" [],
          ServiceDescriptor.mk (GoType.concrete "Widget" [])
            (Factory.mk [] [GoType.concrete "Widget" [], errorType]
              (fun _ _ => (GoVal.nilRef, some "boom")))
            Lifecycle.Singleton none)] 0 [])
      (GoType.concrete "Widget" [])
      (ServiceDescriptor.mk (GoType.concrete "Widget" [])
        (Factory.mk [] [GoType.concrete "Widget" [], errorType]
          (fun _ _ => (GoVal.nilRef, some "boom")))
        Lifecycle.Singleton none)
      0 0 GoVal.nilRef "boom" rfl rfl rfl rfl rfl rfl⟩

/-- C5: a Transient registration invokes the factory anew on every
`Resolve` — each resolution appends exactly one invocation to the trace
and returns the services map unchanged (nothing is cached) — so with an
allocating factory two successive resolutions yield distinct instances,
each being exactly the factory construction result for its fresh
identity. -/
theorem transient_resolves_fresh (st : ResState) (tok rT : GoType)
    (d : ServiceDescriptor) (fuel1 fuel2 : Nat)
    (hd : lookupSvc st.services (normalize tok) = some d)
    (hlc : d.lifecycle = Lifecycle.Transient)
    (hp : d.factory.params = [])
    (hres : d.factory.results = [rT])
    (halloc : ∀ a i, d.factory.impl a i = (GoVal.inst rT i, none)) :
    Resolve (fuel1 + 1) st tok =
      some (Except.ok (GoVal.inst rT st.nextId),
        ResState.mk st.services (st.nextId + 1) (st.calls ++ [d.serviceType])) ∧
    Resolve (fuel2 + 1)
        (ResState.mk st.services (st.nextId + 1) (st.calls ++ [d.serviceType])) tok =
      some (Except.ok (GoVal.inst rT (st.nextId + 1)),
        ResState.mk st.services (st.nextId + 1 + 1)
          ((st.calls ++ [d.serviceType]) ++ [d.serviceType])) ∧
    GoVal.inst rT st.nextId ≠ GoVal.inst rT (st.nextId + 1) := by
  have hc1 : createInstanceWith (resolveType fuel1) st d =
      some (Except.ok (GoVal.inst rT st.nextId),
        ResState.mk st.services (st.nextId + 1) (st.calls ++ [d.serviceType])) := by
    simp [createInstanceWith, hp, resolveArgsWith, hres, halloc]
  have hc2 : createInstanceWith (resolveType fuel2)
      (ResState.mk st.services (st.nextId + 1) (st.calls ++ [d.serviceType])) d =
      some (Except.ok (GoVal.inst rT (st.nextId + 1)),
        ResState.mk st.services (st.nextId + 1 + 1)
          ((st.calls ++ [d.serviceType]) ++ [d.serviceType])) := by
    simp [createInstanceWith, hp, resolveArgsWith, hres, halloc]
  refine ⟨?_, ?_, by simp⟩
  · simp [Resolve, resolveType, hd, hlc, hc1]
  · simp [Resolve, resolveType, hd, hlc, hc2]

/-- Witness for C5: two resolutions of a Transient `Counter` produce the
instances with identities 0 and 1, which differ. -/
theorem transient_resolves_fresh_witness :
    (∀ (a : List GoVal) (i : Nat),
      (Factory.mk [] [GoType.concrete "Counter" []]
        (fun _ i => (GoVal.inst (GoType.concrete "Counter" []) i, none))).impl a i =
        (GoVal.inst (GoType.concrete "Counter" []) i, none)) ∧
    (Resolve 1
        (ResState.mk
          [(GoType.concrete "Counter" [],
            ServiceDescriptor.mk (GoType.concrete "Counter" [])
              (Factory.mk [] [GoType.concrete "Counter" []]
                (fun _ i => (GoVal.inst (GoType.concrete "Counter" []) i, none)))
              Lifecycle.Transient none)] 0 [])
        (GoType.concrete "Counter" []) =
      some (Except.ok (GoVal.inst (GoType.concrete "Counter" []) 0),
        ResState.mk
          [(GoType.concrete "Counter" [],
            ServiceDescriptor.mk (GoType.concrete "Counter" [])
              (Factory.mk [] [GoType.concrete "Counter" []]
                (fun _ i => (GoVal.inst (GoType.concrete "Counter" []) i, none)))
              Lifecycle.Transient none)] (0 + 1)
          ([] ++ [GoType.concrete "Counter" []])) ∧
      Resolve 1
          (ResState.mk
            [(GoType.concrete "Counter" [],
              ServiceDescriptor.mk (GoType.concrete "Counter" [])
                (Factory.mk [] [GoType.concrete "Counter" []]
                  (fun _ i => (GoVal.inst (GoType.concrete "Counter" []) i, none)))
                Lifecycle.Transient none)] (0 + 1)
            ([] ++ [GoType.concrete "Counter" []]))
          (GoType.concrete "Counter" []) =
        some (Except.ok (GoVal.inst (GoType.concrete "Counter" []) (0 + 1)),
          ResState.mk
            [(GoType.concrete "Counter" [],
              ServiceDescriptor.mk (GoType.concrete "Counter" [])
                (Factory.mk [] [GoType.concrete "Counter" []]
                  (fun _ i => (GoVal.inst (GoType.concrete "Counter" []) i, none)))
                Lifecycle.Transient none)] (0 + 1 + 1)
            (([] ++ [GoType.concrete "Counter" []]) ++ [GoType.concrete "Counter" []])) ∧
      GoVal.inst (GoType.concrete "Counter" []) 0 ≠
        GoVal.inst (GoType.concrete "Counter" []) (0 + 1)) :=
  ⟨fun _ _ => rfl,
    transient_resolves_fresh
      (ResState.mk
        [(GoType.concrete "Counter" [],
          ServiceDescriptor.mk (GoType.concrete "Counter" [])
            (Factory.mk [] [GoType.concrete "Counter" []]
              (fun _ i => (GoVal.inst (GoType.concrete "Counter" []) i, none)))
            Lifecycle.Transient none)] 0 [])
      (GoType.concrete "Counter" []) (GoType.concrete "Counter" [])
      (ServiceDescriptor.mk (GoType.concrete "Counter" [])
        (Factory.mk [] [GoType.concrete "Counter" []]
          (fun _ i => (GoVal.inst (GoType.concrete "Counter" []) i, none)))
        Lifecycle.Transient none)
      0 0 rfl rfl rfl rfl (fun _ _ => rfl)⟩

/-- C1: for a Singleton descriptor with an empty cache, a successful
`Resolve` stores the produced instance in that descriptor's cache (all
other descriptor fields unchanged), with the descriptor's own factory
invocation recorded as the final trace entry of the resolution; and every
subsequent `Resolve` of the same serviceType returns that same cached
instance with the state completely unchanged — in particular without
invoking the factory again. -/
theorem singleton_caches_and_reuses (fuel : Nat) (st st' : ResState) (tok : GoType)
    (d : ServiceDescriptor) (v : GoVal)
    (hd : lookupSvc st.services (normalize tok) = some d)
    (hlc : d.lifecycle = Lifecycle.Singleton)
    (hci : d.cachedInstance = none)
    (h : Resolve fuel st tok = some (Except.ok v, st')) :
    lookupSvc st'.services (normalize tok) =
      some (ServiceDescriptor.mk d.serviceType d.factory d.lifecycle (some v)) ∧
    (∃ ext, st'.calls = (st.calls ++ ext) ++ [d.serviceType]) ∧
    ∀ fuel2, Resolve (fuel2 + 1) st' tok = some (Except.ok v, st') := by
  cases fuel with
  | zero => exact absurd h (by simp [Resolve, resolveType])
  | succ n =>
    simp only [Resolve] at h
    simp only [resolveType, hd, hlc, hci] at h
    split at h
    · cases h
    · simp at h
    · rename_i w st2 hcr
      obtain ⟨hw, hst⟩ := Prod.mk.inj (Option.some.inj h)
      obtain rfl := Except.ok.inj hw
      subst hst
      have hev : StateEvolves st st2 :=
        createInstanceWith_evolves _ (resolveType_evolves n) st d _ _ hcr
      have hskel := hev.1 (normalize tok)
      rcases hl2 : lookupSvc st2.services (normalize tok) with - | d2
      · rw [skelAt, skelAt, hl2, hd] at hskel
        simp at hskel
      · rw [skelAt, skelAt, hl2, hd] at hskel
        simp only [Option.map_some', Option.some.injEq, Prod.mk.injEq] at hskel
        obtain ⟨hs1, hs2, hs3⟩ := hskel
        have h1 : lookupSvc
            (ResState.mk (setCache st2.services (normalize tok) w) st2.nextId
              st2.calls).services (normalize tok) =
            some (ServiceDescriptor.mk d.serviceType d.factory d.lifecycle (some w)) := by
          show lookupSvc (setCache st2.services (normalize tok) w) (normalize tok) = _
          rw [lookupSvc_setCache_self, hl2]
          simp [hs1, hs2, hs3]
        refine ⟨h1, ?_, ?_⟩
        · obtain ⟨args, st3, hargs, hsv, hnid, hcalls, hv⟩ :=
            createInstanceWith_ok _ st d _ _ hcr
          obtain ⟨-, ext, hext⟩ :=
            resolveArgsWith_evolves _ (resolveType_evolves n) _ st _ _ hargs
          exact ⟨ext, by rw [show (ResState.mk (setCache st2.services (normalize tok) w)
            st2.nextId st2.calls).calls = st2.calls from rfl, hcalls, hext]⟩
        · intro fuel2
          simp only [Resolve]
          exact resolveType_cached_hit fuel2 _ (normalize tok)
            (ServiceDescriptor.mk d.serviceType d.factory d.lifecycle (some w)) w h1
            hlc rfl

/-- Witness for C1: a Singleton `Widget` registration; the first Resolve
creates and caches instance 0 and the second returns it unchanged. -/
theorem singleton_caches_and_reuses_witness :
    lookupSvc
        [(GoType.concrete "Widget" [],
          ServiceDescriptor.mk (GoType.concrete "Widget" [])
            (Factory.mk [] [GoType.concrete "Widget" []]
              (fun _ i => (GoVal.inst (GoType.concrete "Widget" []) i, none)))
            Lifecycle.Singleton none)]
        (normalize (GoType.concrete "Widget" [])) =
      some (ServiceDescriptor.mk (GoType.concrete "Widget" [])
        (Factory.mk [] [GoType.concrete "Widget" []]
          (fun _ i => (GoVal.inst (GoType.concrete "Widget" []) i, none)))
        Lifecycle.Singleton none) ∧
    Resolve 2
        (ResState.mk
          [(GoType.concrete "Widget" [],
            ServiceDescriptor.mk (GoType.concrete "Widget" [])
              (Factory.mk [] [GoType.concrete "Widget" []]
                (fun _ i => (GoVal.inst (GoType.concrete "Widget" []) i, none)))
              Lifecycle.Singleton none)] 0 [])
        (GoType.concrete "Widget" []) =
      some (Except.ok (GoVal.inst (GoType.concrete "Widget" []) 0),
        ResState.mk
          [(GoType.concrete "Widget" [],
            ServiceDescriptor.mk (GoType.concrete "Widget" [])
              (Factory.mk [] [GoType.concrete "Widget" []]
                (fun _ i => (GoVal.inst (GoType.concrete "Widget" []) i, none)))
              Lifecycle.Singleton (some (GoVal.inst (GoType.concrete "Widget" []) 0)))]
          1 [GoType.concrete "Widget" []]) ∧
    (lookupSvc
        (ResState.mk
          [(GoType.concrete "Widget" [],
            ServiceDescriptor.mk (GoType.concrete "Widget" [])
              (Factory.mk [] [GoType.concrete "Widget" []]
                (fun _ i => (GoVal.inst (GoType.concrete "Widget" []) i, none)))
              Lifecycle.Singleton (some (GoVal.inst (GoType.concrete "Widget" []) 0)))]
          1 [GoType.concrete "Widget" []]).services
        (normalize (GoType.concrete "Widget" [])) =
      some (ServiceDescriptor.mk (GoType.concrete "Widget" [])
        (Factory.mk [] [GoType.concrete "Widget" []]
          (fun _ i => (GoVal.inst (GoType.concrete "Widget" []) i, none)))
        Lifecycle.Singleton (some (GoVal.inst (GoType.concrete "Widget" []) 0))) ∧
      (∃ ext,
        (ResState.mk
          [(GoType.concrete "Widget" [],
            ServiceDescriptor.mk (GoType.concrete "Widget" [])
              (Factory.mk [] [GoType.concrete "Widget" []]
                (fun _ i => (GoVal.inst (GoType.concrete "Widget" []) i, none)))
              Lifecycle.Singleton (some (GoVal.inst (GoType.concrete "Widget" []) 0)))]
          1 [GoType.concrete "Widget" []]).calls =
          (([] : List GoType) ++ ext) ++ [GoType.concrete "Widget" []]) ∧
      ∀ fuel2,
        Resolve (fuel2 + 1)
            (ResState.mk
              [(GoType.concrete "Widget" [],
                ServiceDescriptor.mk (GoType.concrete "Widget" [])
                  (Factory.mk [] [GoType.concrete "Widget" []]
                    (fun _ i => (GoVal.inst (GoType.concrete "Widget" []) i, none)))
                  Lifecycle.Singleton
                  (some (GoVal.inst (GoType.concrete "Widget" []) 0)))]
              1 [GoType.concrete "Widget" []])
            (GoType.concrete "Widget" []) =
          some (Except.ok (GoVal.inst (GoType.concrete "Widget" []) 0),
            ResState.mk
              [(GoType.concrete "Widget" [],
                ServiceDescriptor.mk (GoType.concrete "Widget" [])
                  (Factory.mk [] [GoType.concrete "Widget" []]
                    (fun _ i => (GoVal.inst (GoType.concrete "Widget" []) i, none)))
                  Lifecycle.Singleton
                  (some (GoVal.inst (GoType.concrete "Widget" []) 0)))]
              1 [GoType.concrete "Widget" []])) :=
  ⟨rfl, rfl,
    singleton_caches_and_reuses 2
      (ResState.mk
        [(GoType.concrete "Widget" [],
          ServiceDescriptor.mk (GoType.concrete "Widget" [])
            (Factory.mk [] [GoType.concrete "Widget" []]
              (fun _ i => (GoVal.inst (GoType.concrete "Widget" []) i, none)))
            Lifecycle.Singleton none)] 0 [])
      (ResState.mk
        [(GoType.concrete "Widget" [],
          ServiceDescriptor.mk (GoType.concrete "Widget" [])
            (Factory.mk [] [GoType.concrete "Widget" []]
              (fun _ i => (GoVal.inst (GoType.concrete "Widget" []) i, none)))
            Lifecycle.Singleton (some (GoVal.inst (GoType.concrete "Widget" []) 0)))]
        1 [GoType.concrete "Widget" []])
      (GoType.concrete "Widget" [])
      (ServiceDescriptor.mk (GoType.concrete "Widget" [])
        (Factory.mk [] [GoType.concrete "Widget" []]
          (fun _ i => (GoVal.inst (GoType.concrete "Widget" []) i, none)))
        Lifecycle.Singleton none)
      (GoVal.inst (GoType.concrete "Widget" []) 0) rfl rfl rfl rfl⟩

/-- C10: `Register`, `Resolve` and `Has` normalise the serviceType token
identically — exactly one pointer level is stripped when the token's type
is a pointer, and a non-pointer token is kept as is — so after a
successful registration under any token, `Has` of that same token is true
and a `Resolve` of it can never fail with a (top-level) not-registered
error. -/
theorem normalization_consistent (c c' : AList) (tok u : GoType) (fa : FactoryArg)
    (lc : Lifecycle) (st : ResState) (fuel : Nat)
    (hreg : Register c tok fa lc = (none, c'))
    (hst : st.services = c') :
    normalize (GoType.ptr u) = u ∧
    (isPtr tok = false → normalize tok = tok) ∧
    Has c' tok = true ∧
    ∀ r st2 x, Resolve (fuel + 1) st tok = some (r, st2) →
      r ≠ Except.error (RErr.notRegistered x) := by
  obtain ⟨f, rfl, hc'⟩ := Register_success_shape c c' tok fa lc hreg
  subst hc'
  refine ⟨rfl, ?_, ?_, ?_⟩
  · intro hp
    cases tok <;> first | rfl | simp [isPtr] at hp
  · simp [Has, lookupSvc_setSvc_self]
  · intro r st2 x hres
    have hd : lookupSvc st.services (normalize tok) =
        some (ServiceDescriptor.mk (normalize tok) f lc none) := by
      rw [hst]; exact lookupSvc_setSvc_self c _ _
    simp only [Resolve, resolveType, hd] at hres
    split at hres
    · split at hres
      · cases hres
      · rename_i e stE hcr
        obtain ⟨he, -⟩ := Prod.mk.inj (Option.some.inj hres)
        obtain rfl := he.symm
        rcases createInstanceWith_error_shape _ st _ e stE hcr with ⟨p, e2, rfl⟩ | ⟨m, rfl⟩ <;>
          simp
      · rename_i w stO hcr
        obtain ⟨hw, -⟩ := Prod.mk.inj (Option.some.inj hres)
        obtain rfl := hw.symm
        simp
    · cases r with
      | ok w => simp
      | error e =>
        rcases createInstanceWith_error_shape _ st _ e st2 hres with ⟨p, e2, rfl⟩ | ⟨m, rfl⟩ <;>
          simp

/-- Witness for C10: register `Gadget` under the pointer token `*Gadget`,
then observe `Has` with the same token and a non-not-registered Resolve. -/
theorem normalization_consistent_witness :
    Register [] (GoType.ptr (GoType.concrete "Gadget" []))
        (FactoryArg.fn (Factory.mk [] [GoType.concrete "Gadget" []]
          (fun _ i => (GoVal.inst (GoType.concrete "Gadget" []) i, none))))
        Lifecycle.Transient =
      (none,
        [(GoType.concrete "Gadget" [],
          ServiceDescriptor.mk (GoType.concrete "Gadget" [])
            (Factory.mk [] [GoType.concrete "Gadget" []]
              (fun _ i => (GoVal.inst (GoType.concrete "Gadget" []) i, none)))
            Lifecycle.Transient none)]) ∧
    (normalize (GoType.ptr (GoType.concrete "Gadget" [])) = GoType.concrete "Gadget" [] ∧
      (isPtr (GoType.ptr (GoType.concrete "Gadget" [])) = false →
        normalize (GoType.ptr (GoType.concrete "Gadget" [])) =
          GoType.ptr (GoType.concrete "Gadget" [])) ∧
      Has
          [(GoType.concrete "Gadget" [],
            ServiceDescriptor.mk (GoType.concrete "Gadget" [])
              (Factory.mk [] [GoType.concrete "Gadget" []]
                (fun _ i => (GoVal.inst (GoType.concrete "Gadget" []) i, none)))
              Lifecycle.Transient none)]
          (GoType.ptr (GoType.concrete "Gadget" [])) = true ∧
      ∀ r st2 x,
        Resolve 1
            (ResState.mk
              [(GoType.concrete "Gadget" [],
                ServiceDescriptor.mk (GoType.concrete "Gadget" [])
                  (Factory.mk [] [GoType.concrete "Gadget" []]
                    (fun _ i => (GoVal.inst (GoType.concrete "Gadget" []) i, none)))
                  Lifecycle.Transient none)] 0 [])
            (GoType.ptr (GoType.concrete "Gadget" [])) =
          some (r, st2) →
        r ≠ Except.error (RErr.notRegistered x)) :=
  ⟨rfl,
    normalization_consistent []
      [(GoType.concrete "Gadget" [],
        ServiceDescriptor.mk (GoType.concrete "Gadget" [])
          (Factory.mk [] [GoType.concrete "Gadget" []]
            (fun _ i => (GoVal.inst (GoType.concrete "Gadget" []) i, none)))
          Lifecycle.Transient none)]
      (GoType.ptr (GoType.concrete "Gadget" [])) (GoType.concrete "Gadget" [])
      (FactoryArg.fn (Factory.mk [] [GoType.concrete "Gadget" []]
        (fun _ i => (GoVal.inst (GoType.concrete "Gadget" []) i, none))))
      Lifecycle.Transient
      (ResState.mk
        [(GoType.concrete "Gadget" [],
          ServiceDescriptor.mk (GoType.concrete "Gadget" [])
            (Factory.mk [] [GoType.concrete "Gadget" []]
              (fun _ i => (GoVal.inst (GoType.concrete "Gadget" []) i, none)))
            Lifecycle.Transient none)] 0 [])
      0 rfl rfl⟩

end Inject
